import Mathlib

/-!
Verification of the MVCC transaction read-set tracker and commit-time
validator of the immudb repository, together with the server default
options.

Keys and values are byte sequences (Go `[]byte`), modelled as `List Nat`.
The embedded store code (`embedded/store/ongoing_tx.go`,
`embedded/store/immustore.go`, `embedded/store/options.go`) is not part of
the source tree available here; only fragments quoted in
`src/claude-out/mvcc-read-set-limit-analysis_en.md` are.  The MVCC
definitions below are therefore modelled from the specification, following
the quoted fragments where they exist.  The server options are embedded
directly from `src/pkg/server/options.go`.
-/

namespace Mvcc

/-- Keys are byte sequences, as in Go `[]byte`. -/
abbrev Key := List Nat

/-- Values are byte sequences as well. -/
abbrev Value := List Nat

/-- Lexicographic byte-string comparison, `a ≤ b`, as `bytes.Compare a b <= 0`. -/
def keyLe : Key → Key → Bool
  | [], _ => true
  | _ :: _, [] => false
  | a :: as, b :: bs => if a < b then true else if a = b then keyLe as bs else false

/-- Strict lexicographic byte-string comparison, `a < b`, as `bytes.Compare a b < 0`. -/
def keyLt : Key → Key → Bool
  | [], [] => false
  | [], _ :: _ => true
  | _ :: _, [] => false
  | a :: as, b :: bs => if a < b then true else if a = b then keyLt as bs else false

/-- Modelled from the spec: error taxonomy of §7 (`ReadSetLimitExceeded`,
`ReadWriteConflict`, `TransactionClosed`); store/log I/O failures are out of
scope of the embedded claims. -/
inductive Err where
  | ReadSetLimitExceeded
  | ReadWriteConflict
  | TransactionClosed
deriving DecidableEq, Repr

/-- Modelled from the spec: one element of a range-cursor observation — either
a (key, affecting-sequence) pair returned by `next()`, or the marker recorded
at cursor-reset time (§3, §4.1). -/
inductive CursorEntry where
  | entry (k : Key) (seq : Nat)
  | resetMark
deriving DecidableEq, Repr

/-- Modelled from the spec: a range-cursor observation — a key range `[lo, hi)`
plus the ordered sequence of entries recorded during iteration (§3).  This is
the `expectedReader` of the quoted `mvccReadSet` struct. -/
structure ExpectedReader where
  lo : Key
  hi : Key
  entries : List CursorEntry
deriving DecidableEq, Repr

/-- Embedded from the `mvccReadSet` struct quoted in
`src/claude-out/mvcc-read-set-limit-analysis_en.md` (from
`embedded/store/ongoing_tx.go`): individual key reads, prefix-based reads,
key readers (scanners), and the total count of tracked operations.  A point or
prefix observation stores the affecting sequence number observed at read time,
`none` meaning the key (or prefix) was absent. -/
structure ReadSet where
  expectedGets : List (Key × Option Nat)
  expectedPGets : List (Key × Option Nat)
  expectedReaders : List ExpectedReader
  readsetSize : Nat
deriving DecidableEq, Repr

/-- The empty read-set of a freshly opened transaction. -/
def ReadSet.empty : ReadSet := ⟨[], [], [], 0⟩

/-- Modelled from the spec: transaction lifecycle states (§4.4).  Commit
validation runs as one atomic serialized step here, so the transient
`validating` state collapses into the `commit` operation itself. -/
inductive TxState where
  | active
  | committed
  | aborted
deriving DecidableEq, Repr

/-- Modelled from the spec: a transaction (§3) — snapshot sequence number,
write-set (key to pending value or tombstone, `none` being the tombstone),
read-set, lifecycle state, and the read-set limit captured when the
transaction was opened (the configured limit applies to transactions opened
after an administrative change, §6). -/
structure Tx where
  snapshot : Nat
  writeSet : List (Key × Option Value)
  mvccReadSet : ReadSet
  mvccReadSetLimit : Nat
  state : TxState
deriving DecidableEq, Repr

/-- Modelled from the spec: the external versioned store (§6) — the durable
append-only log of committed write-sets.  The commit at index `i` carries
sequence number `i + 1`; the tip is the length of the log. -/
abbrev Store := List (List (Key × Option Value))

/-- Modelled from the spec: `currentTip()` of the versioned store (§6). -/
def tip (st : Store) : Nat := st.length

/-- Keys touched by one committed write-set. -/
def touchedKeys (ws : List (Key × Option Value)) : List Key := ws.map Prod.fst

/-- Modelled from the spec: `writesSince(sequence)` of the versioned store
(§6) — all committed keys touched by transactions with sequence in
`(s, tip]`. -/
def writesSince (st : Store) (s : Nat) : List Key :=
  ((st.drop s).map touchedKeys).flatten

/-- Latest value written to `k` inside one write-set, if any (later stages of
the same key override earlier ones). -/
def lookupIn (ws : List (Key × Option Value)) (k : Key) : Option (Option Value) :=
  (ws.reverse.find? (fun e => e.1 == k)).map Prod.snd

/-- Modelled from the spec: `readAt(key, sequence)` of the versioned store
(§6), value part — the value of the latest write to `k` at or before
sequence `s`, `none` if absent or deleted by a tombstone. -/
def lookupAt (st : Store) (k : Key) (s : Nat) : Option Value :=
  (List.range (min s (tip st))).foldl
    (fun acc i =>
      match lookupIn (st.getD i []) k with
      | some v => v
      | none => acc)
    none

/-- Modelled from the spec: `readAt(key, sequence)` of the versioned store
(§6), affecting-sequence part — the sequence number of the last write that
affected `k` at or before `s`, or `none` when the key never was written. -/
def affectingSeq (st : Store) (k : Key) (s : Nat) : Option Nat :=
  (List.range (min s (tip st))).foldl
    (fun acc i => if (touchedKeys (st.getD i [])).contains k then some (i + 1) else acc)
    none

/-- Modelled from the spec: `readPrefixAt` (§6), affecting-sequence part — the
sequence of the last write at or before `s` touching any key under the given
prefix, or `none`. -/
def affectingSeqP (st : Store) (p : Key) (s : Nat) : Option Nat :=
  (List.range (min s (tip st))).foldl
    (fun acc i => if (touchedKeys (st.getD i [])).any (fun k => p.isPrefixOf k) then some (i + 1) else acc)
    none

/-- Embedded from the `mvccReadSetLimitReached` function quoted in
`src/claude-out/mvcc-read-set-limit-analysis_en.md` (from
`embedded/store/ongoing_tx.go`): the tracked-read counter has reached the
configured ceiling captured at open time. -/
def Tx.mvccReadSetLimitReached (tx : Tx) : Bool :=
  tx.mvccReadSet.readsetSize == tx.mvccReadSetLimit

/-- Modelled from the spec: `recordGet` / `get(handle, key)` (§4.1, §6) —
refused with `TransactionClosed` on a non-active handle and with
`ReadSetLimitExceeded` when the counter has reached the limit (in which case
no observation is appended and the handle is untouched); otherwise the key is
resolved against the transaction's own write-set first, then the store at the
snapshot, a point observation is appended, and the counter grows by one. -/
def recordGet (st : Store) (tx : Tx) (k : Key) : Except Err (Option Value × Tx) :=
  if tx.state = .active then
    if tx.mvccReadSetLimitReached then .error .ReadSetLimitExceeded
    else
      let v : Option Value :=
        match tx.writeSet.reverse.find? (fun e => e.1 == k) with
        | some e => e.2
        | none => lookupAt st k tx.snapshot
      .ok (v, { tx with
        mvccReadSet := { tx.mvccReadSet with
          expectedGets := tx.mvccReadSet.expectedGets ++ [(k, affectingSeq st k tx.snapshot)]
          readsetSize := tx.mvccReadSet.readsetSize + 1 } })
  else .error .TransactionClosed

/-- Modelled from the spec: `recordPrefixGet` / `getByPrefix(handle, p)`
(§4.1, §6) — same failure modes as `recordGet`; appends a prefix observation
and bumps the counter by one, returning whether any key exists under the
prefix at the snapshot. -/
def recordPGet (st : Store) (tx : Tx) (p : Key) : Except Err (Option Nat × Tx) :=
  if tx.state = .active then
    if tx.mvccReadSetLimitReached then .error .ReadSetLimitExceeded
    else
      .ok (affectingSeqP st p tx.snapshot, { tx with
        mvccReadSet := { tx.mvccReadSet with
          expectedPGets := tx.mvccReadSet.expectedPGets ++ [(p, affectingSeqP st p tx.snapshot)]
          readsetSize := tx.mvccReadSet.readsetSize + 1 } })
  else .error .TransactionClosed

/-- Modelled from the spec: `openCursor(range)` (§4.1) — allocates a fresh
range-cursor observation with no entries yet and returns its index as the
cursor handle; enforcement point of the limit (key-reader creation), but the
counter is incremented by `next()` and reset, not by allocation. -/
def openCursor (tx : Tx) (lo hi : Key) : Except Err (Nat × Tx) :=
  if tx.state = .active then
    if tx.mvccReadSetLimitReached then .error .ReadSetLimitExceeded
    else
      .ok (tx.mvccReadSet.expectedReaders.length, { tx with
        mvccReadSet := { tx.mvccReadSet with
          expectedReaders := tx.mvccReadSet.expectedReaders ++ [⟨lo, hi, []⟩] } })
  else .error .TransactionClosed

/-- Modelled from the spec: `next()` on a cursor (§4.1) — the (key, sequence)
pair returned by the store's iterator is appended to that cursor's range
observation and the global counter is incremented by one; same failure modes
as point reads.  A cursor index never produced by `openCursor` is an unknown
handle, refused with `TransactionClosed`. -/
def cursorNext (tx : Tx) (cid : Nat) (k : Key) (sq : Nat) : Except Err Tx :=
  if tx.state = .active then
    if tx.mvccReadSetLimitReached then .error .ReadSetLimitExceeded
    else
      match tx.mvccReadSet.expectedReaders.get? cid with
      | some r =>
        .ok { tx with
          mvccReadSet := { tx.mvccReadSet with
            expectedReaders := tx.mvccReadSet.expectedReaders.set cid
              { r with entries := r.entries ++ [.entry k sq] }
            readsetSize := tx.mvccReadSet.readsetSize + 1 } }
      | none => .error .TransactionClosed
  else .error .TransactionClosed

/-- Modelled from the spec: resetting a cursor mid-scan (§4.1) — appends a
fresh marker to the observation rather than discarding prior entries, and is
itself counted against the limit. -/
def cursorReset (tx : Tx) (cid : Nat) : Except Err Tx :=
  if tx.state = .active then
    if tx.mvccReadSetLimitReached then .error .ReadSetLimitExceeded
    else
      match tx.mvccReadSet.expectedReaders.get? cid with
      | some r =>
        .ok { tx with
          mvccReadSet := { tx.mvccReadSet with
            expectedReaders := tx.mvccReadSet.expectedReaders.set cid
              { r with entries := r.entries ++ [.resetMark] }
            readsetSize := tx.mvccReadSet.readsetSize + 1 } }
      | none => .error .TransactionClosed
  else .error .TransactionClosed

/-- Modelled from the spec: `stage(handle, key, value | tombstone)` (§6) —
write-set mutation, no read-set cost; fails with `TransactionClosed` on a
non-active handle. -/
def stage (tx : Tx) (k : Key) (v : Option Value) : Except Err Tx :=
  if tx.state = .active then
    .ok { tx with writeSet := tx.writeSet ++ [(k, v)] }
  else .error .TransactionClosed

/-- Modelled from the spec: `rollback(tx)` (§4.4) — transitions directly to
`aborted` from `active`, discarding read-set and write-set; on any other state
it fails with `TransactionClosed`. -/
def rollback (tx : Tx) : Except Err Tx :=
  if tx.state = .active then
    .ok { tx with writeSet := [], mvccReadSet := ReadSet.empty, state := .aborted }
  else .error .TransactionClosed

/-- Modelled from the spec: conflict test of one point observation (§4.3
step 3) — conflict iff some committed write in the interval touched the
observed key. -/
def pointConflict (g : Key × Option Nat) (ks : List Key) : Bool :=
  ks.any (fun k => k == g.1)

/-- Modelled from the spec: conflict test of one prefix observation (§4.3
step 3) — conflict iff some committed write in the interval touched a key
matching the prefix. -/
def pConflict (g : Key × Option Nat) (ks : List Key) : Bool :=
  ks.any (fun k => g.1.isPrefixOf k)

/-- Modelled from the spec: conflict test of one range-cursor observation
(§4.3 step 3) — conflict iff some committed write in the interval touched a
key inside the observed range `[lo, hi)`; this covers phantom inserts and
phantom deletes as well as modifications of previously-returned keys. -/
def readerConflict (r : ExpectedReader) (ks : List Key) : Bool :=
  ks.any (fun k => keyLe r.lo k && keyLt k r.hi)

/-- Modelled from the spec: the whole read-set conflicts with the interval's
committed writes iff some tracked observation of any kind does (§4.3). -/
def hasConflict (rs : ReadSet) (ks : List Key) : Bool :=
  rs.expectedGets.any (fun g => pointConflict g ks) ||
  rs.expectedPGets.any (fun g => pConflict g ks) ||
  rs.expectedReaders.any (fun r => readerConflict r ks)

/-- Outcome of a commit request: the result returned to the caller (assigned
sequence number on success), the store afterwards (unchanged when the commit
fails — no durable effect), and the handle afterwards. -/
structure CommitOutcome where
  result : Except Err Nat
  store : Store
  tx : Tx
deriving Repr

/-- Modelled from the spec: `commit(tx)` (§4.3, §4.4), run as the single
serialized validation/apply step.  With `S` the snapshot and `C` the tip: a
non-active handle is refused with `TransactionClosed`; if `C = S` validation
is skipped entirely and the write-set is applied at sequence `C + 1`;
otherwise every tracked observation is checked against the keys committed in
`(S, C]`, aborting with `ReadWriteConflict` on any hit, else applying the
write-set at `C + 1`. -/
def commit (st : Store) (tx : Tx) : CommitOutcome :=
  if tx.state = .active then
    if tip st = tx.snapshot then
      ⟨.ok (tip st + 1), st ++ [tx.writeSet], { tx with state := .committed }⟩
    else if hasConflict tx.mvccReadSet (writesSince st tx.snapshot) then
      ⟨.error .ReadWriteConflict, st, { tx with state := .aborted }⟩
    else
      ⟨.ok (tip st + 1), st ++ [tx.writeSet], { tx with state := .committed }⟩
  else ⟨.error .TransactionClosed, st, tx⟩

/-- Embedded from the `DefaultMVCCReadSetLimit` constant quoted in
`src/claude-out/mvcc-read-set-limit-analysis_en.md` (from
`embedded/store/options.go`): `const DefaultMVCCReadSetLimit = 100_000`. -/
def DefaultMVCCReadSetLimit : Nat := 100000

/-- Modelled from the spec: the database-level configuration consumed by the
core — a single unsigned integer, the read-set limit (§3, §6). -/
structure DBOptions where
  mvccReadSetLimit : Nat
deriving DecidableEq, Repr

/-- Embedded from the `WithMVCCReadSetLimit` option setter quoted in
`src/claude-out/mvcc-read-set-limit-analysis_en.md` (from
`embedded/store/options.go`). -/
def DBOptions.withMVCCReadSetLimit (o : DBOptions) (n : Nat) : DBOptions :=
  { o with mvccReadSetLimit := n }

/-- Modelled from the spec: default database options carry the documented
default read-set limit (§3, §6; `MVCCReadSetLimit:
store.DefaultMVCCReadSetLimit` in the quoted `pkg/server/db_options.go`
fragment). -/
def defaultDBOptions : DBOptions :=
  { mvccReadSetLimit := DefaultMVCCReadSetLimit }

/-- Modelled from the spec: a database — the committed store plus its current
configuration (§5: the configured limit is database-wide, mutated only
administratively). -/
structure DB where
  store : Store
  opts : DBOptions
deriving DecidableEq, Repr

/-- Modelled from the spec: `open()` (§4.4, §6) — creates an `active`
transaction whose snapshot is the current tip, with empty read- and
write-sets, capturing the read-set limit configured at open time. -/
def openTx (db : DB) : Tx :=
  { snapshot := tip db.store
    writeSet := []
    mvccReadSet := ReadSet.empty
    mvccReadSetLimit := db.opts.mvccReadSetLimit
    state := .active }

/-- Modelled from the spec: the administrative update of the read-set limit
(§5, §6) — changes the database configuration; it applies to transactions
opened thereafter. -/
def updateReadSetLimit (db : DB) (n : Nat) : DB :=
  { db with opts := db.opts.withMVCCReadSetLimit n }

/-- The caller's handle after a point read: the updated transaction on
success, the untouched one when the read was refused (a refused read appends
nothing, §4.1). -/
def txAfterGet (st : Store) (tx : Tx) (k : Key) : Tx :=
  match recordGet st tx k with
  | .ok (_, tx') => tx'
  | .error _ => tx

/-- The caller's handle after a prefix read, as `txAfterGet`. -/
def txAfterPGet (st : Store) (tx : Tx) (p : Key) : Tx :=
  match recordPGet st tx p with
  | .ok (_, tx') => tx'
  | .error _ => tx

/-- The caller's handle after a cursor `next()`, as `txAfterGet`. -/
def txAfterNext (tx : Tx) (cid : Nat) (k : Key) (sq : Nat) : Tx :=
  match cursorNext tx cid k sq with
  | .ok tx' => tx'
  | .error _ => tx

/-- The caller's handle after a cursor reset, as `txAfterGet`. -/
def txAfterReset (tx : Tx) (cid : Nat) : Tx :=
  match cursorReset tx cid with
  | .ok tx' => tx'
  | .error _ => tx

/-- The caller's handle after a rollback request. -/
def txAfterRollback (tx : Tx) : Tx :=
  match rollback tx with
  | .ok tx' => tx'
  | .error _ => tx

/-- Whether an operation succeeded. -/
def exOk {α : Type} : Except Err α → Bool
  | .ok _ => true
  | .error _ => false

end Mvcc

namespace Mvcc

/-- Membership in an interval of committed writes forces the snapshot to lie
strictly below the tip. -/
theorem mem_writesSince_lt (st : Store) (s : Nat) (k : Key)
    (h : k ∈ writesSince st s) : s < st.length := by
  by_contra hns
  push_neg at hns
  rw [writesSince, List.drop_eq_nil_iff.mpr hns] at h
  simp at h

/-- A tracked point observation on a key touched by the interval makes the
read-set conflict. -/
theorem hasConflict_of_point (rs : ReadSet) (ks : List Key) (k : Key) (s : Option Nat)
    (hg : (k, s) ∈ rs.expectedGets) (hk : k ∈ ks) :
    hasConflict rs ks = true := by
  have hp : pointConflict (k, s) ks = true := by
    simpa [pointConflict] using hk
  simp [hasConflict, List.any_eq_true]
  exact Or.inl (Or.inl ⟨k, s, hg, hp⟩)

/-- A tracked range-cursor observation whose range contains a key touched by
the interval makes the read-set conflict. -/
theorem hasConflict_of_reader (rs : ReadSet) (ks : List Key) (r : ExpectedReader) (k : Key)
    (hr : r ∈ rs.expectedReaders) (hk : k ∈ ks)
    (hlo : keyLe r.lo k = true) (hhi : keyLt k r.hi = true) :
    hasConflict rs ks = true := by
  have hc : readerConflict r ks = true := by
    simp [readerConflict, List.any_eq_true]
    exact ⟨k, hk, hlo, hhi⟩
  simp [hasConflict, List.any_eq_true]
  exact Or.inr ⟨r, hr, hc⟩

/-- C1: a transaction holding a point observation on key `k` in its read-set,
validating while some transaction committed a write touching `k` in the
interval between its snapshot and the tip, fails its commit with
`ReadWriteConflict`, leaves the store untouched (no durable effect), and ends
aborted. -/
theorem point_conflict_aborts (st : Store) (tx : Tx) (k : Key) (s : Option Nat)
    (hact : tx.state = .active)
    (hobs : (k, s) ∈ tx.mvccReadSet.expectedGets)
    (hk : k ∈ writesSince st tx.snapshot) :
    (commit st tx).result = .error .ReadWriteConflict ∧
    (commit st tx).store = st ∧
    (commit st tx).tx.state = .aborted := by
  have hlt := mem_writesSince_lt st tx.snapshot k hk
  have hne : ¬ tip st = tx.snapshot := by
    rw [tip]; omega
  have hc := hasConflict_of_point tx.mvccReadSet (writesSince st tx.snapshot) k s hobs hk
  simp [commit, hact, hne, hc]

/-- Witness for C1: the §8 scenario — a transaction at snapshot 0 observed key
`x` (byte 120) as absent; one commit touching `x` happened before it
validates; its commit fails with `ReadWriteConflict`, the store is unchanged
and the transaction is aborted. -/
theorem point_conflict_aborts_witness :
    ({ snapshot := 0, writeSet := [], mvccReadSet := ⟨[([120], none)], [], [], 1⟩,
       mvccReadSetLimit := 100000, state := .active } : Tx).state = .active ∧
    ([120], (none : Option Nat)) ∈
      ({ snapshot := 0, writeSet := [], mvccReadSet := ⟨[([120], none)], [], [], 1⟩,
         mvccReadSetLimit := 100000, state := .active } : Tx).mvccReadSet.expectedGets ∧
    [120] ∈ writesSince [[([120], some [118, 49])]] 0 ∧
    ((commit [[([120], some [118, 49])]]
       { snapshot := 0, writeSet := [], mvccReadSet := ⟨[([120], none)], [], [], 1⟩,
         mvccReadSetLimit := 100000, state := .active }).result = .error .ReadWriteConflict ∧
     (commit [[([120], some [118, 49])]]
       { snapshot := 0, writeSet := [], mvccReadSet := ⟨[([120], none)], [], [], 1⟩,
         mvccReadSetLimit := 100000, state := .active }).store = [[([120], some [118, 49])]] ∧
     (commit [[([120], some [118, 49])]]
       { snapshot := 0, writeSet := [], mvccReadSet := ⟨[([120], none)], [], [], 1⟩,
         mvccReadSetLimit := 100000, state := .active }).tx.state = .aborted) :=
  ⟨rfl, by decide, by decide,
    point_conflict_aborts _ _ [120] none rfl (by decide) (by decide)⟩

end Mvcc

namespace Mvcc

/-- C2: a transaction holding a range-cursor observation over `[lo, hi)`,
validating while some transaction committed a write to a key inside that
range in the interval between its snapshot and the tip, fails its commit with
`ReadWriteConflict` — the recorded entries are arbitrary, so this covers keys
never returned by the cursor (phantom inserts) and previously observed keys
now excluded (phantom deletes) alike. -/
theorem range_conflict_aborts (st : Store) (tx : Tx) (r : ExpectedReader) (k : Key)
    (hact : tx.state = .active)
    (hobs : r ∈ tx.mvccReadSet.expectedReaders)
    (hk : k ∈ writesSince st tx.snapshot)
    (hlo : keyLe r.lo k = true) (hhi : keyLt k r.hi = true) :
    (commit st tx).result = .error .ReadWriteConflict ∧
    (commit st tx).store = st ∧
    (commit st tx).tx.state = .aborted := by
  have hlt := mem_writesSince_lt st tx.snapshot k hk
  have hne : ¬ tip st = tx.snapshot := by
    rw [tip]; omega
  have hc := hasConflict_of_reader tx.mvccReadSet (writesSince st tx.snapshot) r k hobs hk hlo hhi
  simp [commit, hact, hne, hc]

/-- Witness for C2: the §8 phantom scenario — a cursor over `[a, z)` (bytes
97, 122) observed keys `b` and `c`; a concurrent commit inserts key `m`
(byte 109), never returned by the cursor; the commit fails with
`ReadWriteConflict`, the store is unchanged and the transaction is
aborted. -/
theorem range_conflict_aborts_witness :
    ({ snapshot := 1, writeSet := [],
       mvccReadSet := ⟨[], [], [⟨[97], [122], [.entry [98] 1, .entry [99] 1]⟩], 2⟩,
       mvccReadSetLimit := 100000, state := .active } : Tx).state = .active ∧
    (⟨[97], [122], [.entry [98] 1, .entry [99] 1]⟩ : ExpectedReader) ∈
      ({ snapshot := 1, writeSet := [],
         mvccReadSet := ⟨[], [], [⟨[97], [122], [.entry [98] 1, .entry [99] 1]⟩], 2⟩,
         mvccReadSetLimit := 100000, state := .active } : Tx).mvccReadSet.expectedReaders ∧
    [109] ∈ writesSince [[([98], some [49]), ([99], some [49])], [([109], some [50])]] 1 ∧
    keyLe [97] [109] = true ∧ keyLt [109] [122] = true ∧
    ((commit [[([98], some [49]), ([99], some [49])], [([109], some [50])]]
       { snapshot := 1, writeSet := [],
         mvccReadSet := ⟨[], [], [⟨[97], [122], [.entry [98] 1, .entry [99] 1]⟩], 2⟩,
         mvccReadSetLimit := 100000, state := .active }).result = .error .ReadWriteConflict ∧
     (commit [[([98], some [49]), ([99], some [49])], [([109], some [50])]]
       { snapshot := 1, writeSet := [],
         mvccReadSet := ⟨[], [], [⟨[97], [122], [.entry [98] 1, .entry [99] 1]⟩], 2⟩,
         mvccReadSetLimit := 100000, state := .active }).tx.state = .aborted) :=
  ⟨rfl, by decide, by decide, by decide, by decide,
    (range_conflict_aborts _ _ ⟨[97], [122], [.entry [98] 1, .entry [99] 1]⟩ [109]
      rfl (by decide) (by decide) (by decide) (by decide)).1,
    (range_conflict_aborts _ _ ⟨[97], [122], [.entry [98] 1, .entry [99] 1]⟩ [109]
      rfl (by decide) (by decide) (by decide) (by decide)).2.2⟩

/-- C3: a transaction whose snapshot equals the committed tip at validation
time (no transaction committed in between) commits successfully, is assigned
sequence `tip + 1`, and its write-set is appended to the store; the read-set
is never consulted on this path — the theorem holds for every transaction,
whatever observations its read-set carries, because `commit` takes the fast
path before any per-observation conflict check. -/
theorem commit_fast_path (st : Store) (tx : Tx)
    (hact : tx.state = .active) (hs : tip st = tx.snapshot) :
    (commit st tx).result = .ok (tip st + 1) ∧
    (commit st tx).store = st ++ [tx.writeSet] ∧
    (commit st tx).tx.state = .committed := by
  simp [commit, hact, hs]

/-- Witness for C3: the §8 scenario — a transaction opened at tip 10 stages
`y = "1"` (bytes 121; 49) and commits with no intervening commit; it succeeds
with the new tip 11.  The read-set even holds a point observation on `y`
itself, showing that no conflict check ran. -/
theorem commit_fast_path_witness :
    ({ snapshot := 10, writeSet := [([121], some [49])],
       mvccReadSet := ⟨[([121], none)], [], [], 1⟩,
       mvccReadSetLimit := 100000, state := .active } : Tx).state = .active ∧
    tip (List.replicate 10 []) = 10 ∧
    ((commit (List.replicate 10 [])
       { snapshot := 10, writeSet := [([121], some [49])],
         mvccReadSet := ⟨[([121], none)], [], [], 1⟩,
         mvccReadSetLimit := 100000, state := .active }).result = .ok 11 ∧
     (commit (List.replicate 10 [])
       { snapshot := 10, writeSet := [([121], some [49])],
         mvccReadSet := ⟨[([121], none)], [], [], 1⟩,
         mvccReadSetLimit := 100000, state := .active }).store =
       List.replicate 10 [] ++ [[([121], some [49])]] ∧
     (commit (List.replicate 10 [])
       { snapshot := 10, writeSet := [([121], some [49])],
         mvccReadSet := ⟨[([121], none)], [], [], 1⟩,
         mvccReadSetLimit := 100000, state := .active }).tx.state = .committed) :=
  ⟨rfl, by decide,
    (commit_fast_path (List.replicate 10 []) _ rfl (by decide)).1,
    (commit_fast_path (List.replicate 10 []) _ rfl (by decide)).2.1,
    (commit_fast_path (List.replicate 10 []) _ rfl (by decide)).2.2⟩

/-- C4: once the tracked-read counter has reached the limit, the next
tracked read of any kind — point read, prefix read, cursor `next()`, cursor
reset — is refused with `ReadSetLimitExceeded`; no observation is appended
(the caller's handle is unchanged by each refused operation) and the
transaction is not auto-aborted: it stays `active`, so a subsequent commit is
never refused as `TransactionClosed` and validates exactly the observations
already tracked. -/
theorem read_at_limit_refused (st : Store) (tx : Tx) (k p : Key) (cid sq : Nat)
    (hact : tx.state = .active)
    (hlim : tx.mvccReadSet.readsetSize = tx.mvccReadSetLimit) :
    recordGet st tx k = .error .ReadSetLimitExceeded ∧
    recordPGet st tx p = .error .ReadSetLimitExceeded ∧
    cursorNext tx cid k sq = .error .ReadSetLimitExceeded ∧
    cursorReset tx cid = .error .ReadSetLimitExceeded ∧
    txAfterGet st tx k = tx ∧
    txAfterPGet st tx p = tx ∧
    txAfterNext tx cid k sq = tx ∧
    txAfterReset tx cid = tx ∧
    (txAfterGet st tx k).state = .active ∧
    (commit st tx).result ≠ .error .TransactionClosed := by
  have hr : tx.mvccReadSetLimitReached = true := by
    simp [Tx.mvccReadSetLimitReached, hlim]
  refine ⟨by simp [recordGet, hact, hr], by simp [recordPGet, hact, hr],
    by simp [cursorNext, hact, hr], by simp [cursorReset, hact, hr],
    by simp [txAfterGet, recordGet, hact, hr],
    by simp [txAfterPGet, recordPGet, hact, hr],
    by simp [txAfterNext, cursorNext, hact, hr],
    by simp [txAfterReset, cursorReset, hact, hr],
    by simp [txAfterGet, recordGet, hact, hr], ?_⟩
  by_cases h1 : tip st = tx.snapshot
  · simp [commit, hact, h1]
  · by_cases h2 : hasConflict tx.mvccReadSet (writesSince st tx.snapshot)
    · simp [commit, hact, h1, h2]
    · simp [commit, hact, h1, h2]

end Mvcc

namespace Mvcc

/-- A concrete transaction at its limit, used to witness C4: limit 3, counter
3 after two point reads and one cursor `next()`, the cursor over `[a, z)`
still open at index 0. -/
def txC4 : Tx :=
  { snapshot := 0, writeSet := [],
    mvccReadSet := ⟨[([97], none), ([98], none)], [], [⟨[97], [122], [.entry [98] 1]⟩], 3⟩,
    mvccReadSetLimit := 3, state := .active }

/-- Witness for C4: the §8 scenario on `txC4` — limit configured to 3 and
three tracked reads performed; the 4th tracked read fails with
`ReadSetLimitExceeded` whichever kind it is (point read of `d`, prefix read
under `a`, `next()` or reset on the open cursor 0), each refusal leaves the
handle unchanged and still active, and commit is not refused as closed. -/
theorem read_at_limit_refused_witness :
    txC4.state = .active ∧
    txC4.mvccReadSet.readsetSize = txC4.mvccReadSetLimit ∧
    (recordGet [] txC4 [100] = .error .ReadSetLimitExceeded ∧
     recordPGet [] txC4 [97] = .error .ReadSetLimitExceeded ∧
     cursorNext txC4 0 [99] 1 = .error .ReadSetLimitExceeded ∧
     cursorReset txC4 0 = .error .ReadSetLimitExceeded ∧
     txAfterGet [] txC4 [100] = txC4 ∧
     txAfterPGet [] txC4 [97] = txC4 ∧
     txAfterNext txC4 0 [99] 1 = txC4 ∧
     txAfterReset txC4 0 = txC4 ∧
     (txAfterGet [] txC4 [100]).state = .active ∧
     (commit [] txC4).result ≠ .error .TransactionClosed) :=
  ⟨rfl, rfl, read_at_limit_refused [] txC4 [100] [97] 0 1 rfl rfl⟩

/-- Success/failure dichotomy of a point read: either the counter was below
the limit, the read succeeded and the counter grew by one, or the read failed
and the caller's handle is untouched. -/
theorem recordGet_step (st : Store) (tx : Tx) (k : Key) :
    (tx.state = .active ∧ tx.mvccReadSet.readsetSize ≠ tx.mvccReadSetLimit ∧
      exOk (recordGet st tx k) = true ∧
      (txAfterGet st tx k).mvccReadSet.readsetSize = tx.mvccReadSet.readsetSize + 1) ∨
    (exOk (recordGet st tx k) = false ∧ txAfterGet st tx k = tx) := by
  by_cases hact : tx.state = .active
  · by_cases hlim : tx.mvccReadSet.readsetSize = tx.mvccReadSetLimit
    · right; simp [exOk, recordGet, txAfterGet, Tx.mvccReadSetLimitReached, hact, hlim]
    · left; simp [exOk, recordGet, txAfterGet, Tx.mvccReadSetLimitReached, hact, hlim]
  · right; simp [exOk, recordGet, txAfterGet, hact]

/-- Success/failure dichotomy of a prefix read, as `recordGet_step`. -/
theorem recordPGet_step (st : Store) (tx : Tx) (p : Key) :
    (tx.state = .active ∧ tx.mvccReadSet.readsetSize ≠ tx.mvccReadSetLimit ∧
      exOk (recordPGet st tx p) = true ∧
      (txAfterPGet st tx p).mvccReadSet.readsetSize = tx.mvccReadSet.readsetSize + 1) ∨
    (exOk (recordPGet st tx p) = false ∧ txAfterPGet st tx p = tx) := by
  by_cases hact : tx.state = .active
  · by_cases hlim : tx.mvccReadSet.readsetSize = tx.mvccReadSetLimit
    · right; simp [exOk, recordPGet, txAfterPGet, Tx.mvccReadSetLimitReached, hact, hlim]
    · left; simp [exOk, recordPGet, txAfterPGet, Tx.mvccReadSetLimitReached, hact, hlim]
  · right; simp [exOk, recordPGet, txAfterPGet, hact]

/-- Success/failure dichotomy of a cursor `next()`, as `recordGet_step`. -/
theorem cursorNext_step (tx : Tx) (cid : Nat) (k : Key) (sq : Nat) :
    (tx.state = .active ∧ tx.mvccReadSet.readsetSize ≠ tx.mvccReadSetLimit ∧
      exOk (cursorNext tx cid k sq) = true ∧
      (txAfterNext tx cid k sq).mvccReadSet.readsetSize = tx.mvccReadSet.readsetSize + 1) ∨
    (exOk (cursorNext tx cid k sq) = false ∧ txAfterNext tx cid k sq = tx) := by
  by_cases hact : tx.state = .active
  · by_cases hlim : tx.mvccReadSet.readsetSize = tx.mvccReadSetLimit
    · right; simp [exOk, cursorNext, txAfterNext, Tx.mvccReadSetLimitReached, hact, hlim]
    · cases hc : tx.mvccReadSet.expectedReaders[cid]? with
      | some r =>
        left
        simp [exOk, cursorNext, txAfterNext, Tx.mvccReadSetLimitReached, hact, hlim, hc]
      | none =>
        right
        simp [exOk, cursorNext, txAfterNext, Tx.mvccReadSetLimitReached, hact, hlim, hc]
  · right; simp [exOk, cursorNext, txAfterNext, hact]

/-- Success/failure dichotomy of a cursor reset, as `recordGet_step`. -/
theorem cursorReset_step (tx : Tx) (cid : Nat) :
    (tx.state = .active ∧ tx.mvccReadSet.readsetSize ≠ tx.mvccReadSetLimit ∧
      exOk (cursorReset tx cid) = true ∧
      (txAfterReset tx cid).mvccReadSet.readsetSize = tx.mvccReadSet.readsetSize + 1) ∨
    (exOk (cursorReset tx cid) = false ∧ txAfterReset tx cid = tx) := by
  by_cases hact : tx.state = .active
  · by_cases hlim : tx.mvccReadSet.readsetSize = tx.mvccReadSetLimit
    · right; simp [exOk, cursorReset, txAfterReset, Tx.mvccReadSetLimitReached, hact, hlim]
    · cases hc : tx.mvccReadSet.expectedReaders[cid]? with
      | some r =>
        left
        simp [exOk, cursorReset, txAfterReset, Tx.mvccReadSetLimitReached, hact, hlim, hc]
      | none =>
        right
        simp [exOk, cursorReset, txAfterReset, Tx.mvccReadSetLimitReached, hact, hlim, hc]
  · right; simp [exOk, cursorReset, txAfterReset, hact]

/-- C5: for every tracked read operation — point read, prefix read, cursor
`next()`, cursor reset — a successful call increments the single read-set
counter by exactly one; the counter never decreases across any such call, and
if it respected the configured limit before, it still does after: the counter
never exceeds the limit captured at open time. -/
theorem readset_counter_invariant (st : Store) (tx : Tx) (k p : Key) (cid sq : Nat)
    (hb : tx.mvccReadSet.readsetSize ≤ tx.mvccReadSetLimit) :
    (exOk (recordGet st tx k) = true →
      (txAfterGet st tx k).mvccReadSet.readsetSize = tx.mvccReadSet.readsetSize + 1) ∧
    tx.mvccReadSet.readsetSize ≤ (txAfterGet st tx k).mvccReadSet.readsetSize ∧
    (txAfterGet st tx k).mvccReadSet.readsetSize ≤ tx.mvccReadSetLimit ∧
    (exOk (recordPGet st tx p) = true →
      (txAfterPGet st tx p).mvccReadSet.readsetSize = tx.mvccReadSet.readsetSize + 1) ∧
    tx.mvccReadSet.readsetSize ≤ (txAfterPGet st tx p).mvccReadSet.readsetSize ∧
    (txAfterPGet st tx p).mvccReadSet.readsetSize ≤ tx.mvccReadSetLimit ∧
    (exOk (cursorNext tx cid k sq) = true →
      (txAfterNext tx cid k sq).mvccReadSet.readsetSize = tx.mvccReadSet.readsetSize + 1) ∧
    tx.mvccReadSet.readsetSize ≤ (txAfterNext tx cid k sq).mvccReadSet.readsetSize ∧
    (txAfterNext tx cid k sq).mvccReadSet.readsetSize ≤ tx.mvccReadSetLimit ∧
    (exOk (cursorReset tx cid) = true →
      (txAfterReset tx cid).mvccReadSet.readsetSize = tx.mvccReadSet.readsetSize + 1) ∧
    tx.mvccReadSet.readsetSize ≤ (txAfterReset tx cid).mvccReadSet.readsetSize ∧
    (txAfterReset tx cid).mvccReadSet.readsetSize ≤ tx.mvccReadSetLimit := by
  rcases recordGet_step st tx k with ⟨_, hne, hok, hsz⟩ | ⟨hok, heq⟩ <;>
    rcases recordPGet_step st tx p with ⟨_, hne2, hok2, hsz2⟩ | ⟨hok2, heq2⟩ <;>
    rcases cursorNext_step tx cid k sq with ⟨_, hne3, hok3, hsz3⟩ | ⟨hok3, heq3⟩ <;>
    rcases cursorReset_step tx cid with ⟨_, hne4, hok4, hsz4⟩ | ⟨hok4, heq4⟩ <;>
    refine ⟨?_, ?_, ?_, ?_, ?_, ?_, ?_, ?_, ?_, ?_, ?_, ?_⟩ <;>
    simp_all <;> omega

end Mvcc

namespace Mvcc

/-- A concrete transaction used to witness the counter invariant: one open
cursor, counter 0, limit 3. -/
def txC5 : Tx :=
  { snapshot := 0, writeSet := [],
    mvccReadSet := ⟨[], [], [⟨[97], [122], []⟩], 0⟩,
    mvccReadSetLimit := 3, state := .active }

/-- Witness for C5: the counter invariant instantiated on a concrete
transaction with counter 0 and limit 3, exercising a point read on key `x`,
a prefix read under `a`, and `next()`/reset on cursor 0. -/
theorem readset_counter_invariant_witness :
    txC5.mvccReadSet.readsetSize ≤ txC5.mvccReadSetLimit ∧
    ((exOk (recordGet [] txC5 [120]) = true →
      (txAfterGet [] txC5 [120]).mvccReadSet.readsetSize = txC5.mvccReadSet.readsetSize + 1) ∧
    txC5.mvccReadSet.readsetSize ≤ (txAfterGet [] txC5 [120]).mvccReadSet.readsetSize ∧
    (txAfterGet [] txC5 [120]).mvccReadSet.readsetSize ≤ txC5.mvccReadSetLimit ∧
    (exOk (recordPGet [] txC5 [97]) = true →
      (txAfterPGet [] txC5 [97]).mvccReadSet.readsetSize = txC5.mvccReadSet.readsetSize + 1) ∧
    txC5.mvccReadSet.readsetSize ≤ (txAfterPGet [] txC5 [97]).mvccReadSet.readsetSize ∧
    (txAfterPGet [] txC5 [97]).mvccReadSet.readsetSize ≤ txC5.mvccReadSetLimit ∧
    (exOk (cursorNext txC5 0 [120] 5) = true →
      (txAfterNext txC5 0 [120] 5).mvccReadSet.readsetSize = txC5.mvccReadSet.readsetSize + 1) ∧
    txC5.mvccReadSet.readsetSize ≤ (txAfterNext txC5 0 [120] 5).mvccReadSet.readsetSize ∧
    (txAfterNext txC5 0 [120] 5).mvccReadSet.readsetSize ≤ txC5.mvccReadSetLimit ∧
    (exOk (cursorReset txC5 0) = true →
      (txAfterReset txC5 0).mvccReadSet.readsetSize = txC5.mvccReadSet.readsetSize + 1) ∧
    txC5.mvccReadSet.readsetSize ≤ (txAfterReset txC5 0).mvccReadSet.readsetSize ∧
    (txAfterReset txC5 0).mvccReadSet.readsetSize ≤ txC5.mvccReadSetLimit) :=
  ⟨by decide, readset_counter_invariant [] txC5 [120] [97] 0 5 (by decide)⟩

/-- C6: the configured read-set limit is an unsigned integer (`Nat` here),
and its default — the `DefaultMVCCReadSetLimit` constant carried into the
default database options when nothing is set administratively — is
100,000. -/
theorem default_readset_limit :
    DefaultMVCCReadSetLimit = 100000 ∧
    defaultDBOptions.mvccReadSetLimit = DefaultMVCCReadSetLimit ∧
    defaultDBOptions.mvccReadSetLimit = 100000 :=
  ⟨rfl, rfl, rfl⟩

/-- C7: a transaction already open when the read-set limit is updated
administratively keeps being enforced against the limit captured when it was
opened: opening records the database's configured limit in the handle, the
limit-reached test consults only that captured value, the update does not
touch the store a running transaction reads against, and only a transaction
opened after the change sees the new value. -/
theorem limit_update_not_retroactive (db : DB) (n : Nat) (tx : Tx) (k : Key)
    (hopen : tx.mvccReadSetLimit = db.opts.mvccReadSetLimit) :
    (openTx db).mvccReadSetLimit = db.opts.mvccReadSetLimit ∧
    tx.mvccReadSetLimitReached = (tx.mvccReadSet.readsetSize == db.opts.mvccReadSetLimit) ∧
    recordGet (updateReadSetLimit db n).store tx k = recordGet db.store tx k ∧
    (openTx (updateReadSetLimit db n)).mvccReadSetLimit = n :=
  ⟨rfl, by rw [Tx.mvccReadSetLimitReached, hopen], rfl, rfl⟩

/-- Witness for C7: a database configured with limit 3; a transaction opened
from it keeps limit 3 under it even after the administrative update to 5,
while a transaction opened after the update gets 5. -/
theorem limit_update_not_retroactive_witness :
    (openTx { store := [], opts := ⟨3⟩ }).mvccReadSetLimit =
      ({ store := [], opts := ⟨3⟩ } : DB).opts.mvccReadSetLimit ∧
    ((openTx { store := [], opts := ⟨3⟩ }).mvccReadSetLimit =
      ({ store := [], opts := ⟨3⟩ } : DB).opts.mvccReadSetLimit ∧
     (openTx { store := [], opts := ⟨3⟩ }).mvccReadSetLimitReached =
       ((openTx { store := [], opts := ⟨3⟩ }).mvccReadSet.readsetSize ==
         ({ store := [], opts := ⟨3⟩ } : DB).opts.mvccReadSetLimit) ∧
     recordGet (updateReadSetLimit { store := [], opts := ⟨3⟩ } 5).store
         (openTx { store := [], opts := ⟨3⟩ }) [120] =
       recordGet ({ store := [], opts := ⟨3⟩ } : DB).store
         (openTx { store := [], opts := ⟨3⟩ }) [120] ∧
     (openTx (updateReadSetLimit { store := [], opts := ⟨3⟩ } 5)).mvccReadSetLimit = 5) :=
  ⟨rfl, limit_update_not_retroactive { store := [], opts := ⟨3⟩ } 5
    (openTx { store := [], opts := ⟨3⟩ }) [120] rfl⟩

end Mvcc

namespace Mvcc

/-- C8: on an open cursor below the limit, `next()` succeeds, appends the
returned (key, sequence) pair to that cursor's range observation and bumps
the transaction's global counter by one; a mid-scan reset succeeds, appends a
fresh marker while retaining every entry recorded before it, is likewise
counted against the limit, and leaves the observation's conflict behaviour —
what commit-time validation checks — identical, so both the pre-reset and
post-reset views are validated at commit. -/
theorem cursor_next_reset_tracking (tx : Tx) (cid : Nat) (r : ExpectedReader)
    (k : Key) (sq : Nat)
    (hact : tx.state = .active)
    (hlim : tx.mvccReadSet.readsetSize ≠ tx.mvccReadSetLimit)
    (hr : tx.mvccReadSet.expectedReaders.get? cid = some r) :
    exOk (cursorNext tx cid k sq) = true ∧
    (txAfterNext tx cid k sq).mvccReadSet.expectedReaders.get? cid =
      some ⟨r.lo, r.hi, r.entries ++ [.entry k sq]⟩ ∧
    (txAfterNext tx cid k sq).mvccReadSet.readsetSize = tx.mvccReadSet.readsetSize + 1 ∧
    exOk (cursorReset tx cid) = true ∧
    (txAfterReset tx cid).mvccReadSet.expectedReaders.get? cid =
      some ⟨r.lo, r.hi, r.entries ++ [.resetMark]⟩ ∧
    (txAfterReset tx cid).mvccReadSet.readsetSize = tx.mvccReadSet.readsetSize + 1 ∧
    readerConflict ⟨r.lo, r.hi, r.entries ++ [.resetMark]⟩ = readerConflict r := by
  have hgr : tx.mvccReadSet.expectedReaders[cid]? = some r := by
    rw [← List.get?_eq_getElem?]; exact hr
  have hlt : cid < tx.mvccReadSet.expectedReaders.length := by
    by_contra hn
    push_neg at hn
    rw [List.getElem?_eq_none hn] at hgr
    exact Option.noConfusion hgr
  refine ⟨?_, ?_, ?_, ?_, ?_, ?_, rfl⟩
  · simp [exOk, cursorNext, Tx.mvccReadSetLimitReached, hact, hlim, hgr]
  · simp [txAfterNext, cursorNext, Tx.mvccReadSetLimitReached, hact, hlim, hgr,
      List.getElem?_set_eq_of_lt _ hlt]
  · simp [txAfterNext, cursorNext, Tx.mvccReadSetLimitReached, hact, hlim, hgr]
  · simp [exOk, cursorReset, Tx.mvccReadSetLimitReached, hact, hlim, hgr]
  · simp [txAfterReset, cursorReset, Tx.mvccReadSetLimitReached, hact, hlim, hgr,
      List.getElem?_set_eq_of_lt _ hlt]
  · simp [txAfterReset, cursorReset, Tx.mvccReadSetLimitReached, hact, hlim, hgr]

end Mvcc

namespace Mvcc

/-- A concrete transaction used to witness cursor tracking: one cursor over
`[a, z)` that already returned key `b`, counter 1, limit 3. -/
def txC8 : Tx :=
  { snapshot := 0, writeSet := [],
    mvccReadSet := ⟨[], [], [⟨[97], [122], [.entry [98] 1]⟩], 1⟩,
    mvccReadSetLimit := 3, state := .active }

/-- Witness for C8: on the concrete cursor of `txC8`, `next()` returning key
`c` appends the pair and bumps the counter to 2, and a reset appends the
marker after the retained entry, also bumping the counter to 2. -/
theorem cursor_next_reset_tracking_witness :
    txC8.state = .active ∧
    txC8.mvccReadSet.readsetSize ≠ txC8.mvccReadSetLimit ∧
    txC8.mvccReadSet.expectedReaders.get? 0 = some ⟨[97], [122], [.entry [98] 1]⟩ ∧
    (exOk (cursorNext txC8 0 [99] 2) = true ∧
     (txAfterNext txC8 0 [99] 2).mvccReadSet.expectedReaders.get? 0 =
       some ⟨[97], [122], [.entry [98] 1, .entry [99] 2]⟩ ∧
     (txAfterNext txC8 0 [99] 2).mvccReadSet.readsetSize = txC8.mvccReadSet.readsetSize + 1 ∧
     exOk (cursorReset txC8 0) = true ∧
     (txAfterReset txC8 0).mvccReadSet.expectedReaders.get? 0 =
       some ⟨[97], [122], [.entry [98] 1, .resetMark]⟩ ∧
     (txAfterReset txC8 0).mvccReadSet.readsetSize = txC8.mvccReadSet.readsetSize + 1 ∧
     readerConflict ⟨[97], [122], [.entry [98] 1, .resetMark]⟩ =
       readerConflict ⟨[97], [122], [.entry [98] 1]⟩) :=
  ⟨rfl, by decide, by decide,
    cursor_next_reset_tracking txC8 0 ⟨[97], [122], [.entry [98] 1]⟩ [99] 2
      rfl (by decide) (by decide)⟩

/-- C9: a handle in a terminal state refuses every further operation with
`TransactionClosed` — point read, prefix read, cursor open/next/reset, write
staging, commit (which also leaves the store untouched) and rollback — and
both ways of reaching a terminal state are covered: rolling back an active
transaction and committing one (successfully or not) leave the handle
non-active, so any subsequent operation on it falls under the first part. -/
theorem terminal_handle_rejects_ops (st : Store) (tx tx₀ : Tx) (k p lo hi : Key)
    (v : Option Value) (cid sq : Nat)
    (hterm : tx.state ≠ .active) (hact : tx₀.state = .active) :
    recordGet st tx k = .error .TransactionClosed ∧
    recordPGet st tx p = .error .TransactionClosed ∧
    openCursor tx lo hi = .error .TransactionClosed ∧
    cursorNext tx cid k sq = .error .TransactionClosed ∧
    cursorReset tx cid = .error .TransactionClosed ∧
    stage tx k v = .error .TransactionClosed ∧
    (commit st tx).result = .error .TransactionClosed ∧
    (commit st tx).store = st ∧
    rollback tx = .error .TransactionClosed ∧
    (txAfterRollback tx₀).state ≠ .active ∧
    (commit st tx₀).tx.state ≠ .active := by
  refine ⟨by simp [recordGet, hterm], by simp [recordPGet, hterm],
    by simp [openCursor, hterm], by simp [cursorNext, hterm],
    by simp [cursorReset, hterm], by simp [stage, hterm],
    by simp [commit, hterm], by simp [commit, hterm],
    by simp [rollback, hterm],
    by simp [txAfterRollback, rollback, hact], ?_⟩
  by_cases h1 : tip st = tx₀.snapshot
  · simp [commit, hact, h1]
  · by_cases h2 : hasConflict tx₀.mvccReadSet (writesSince st tx₀.snapshot)
    · simp [commit, hact, h1, h2]
    · simp [commit, hact, h1, h2]

/-- A concrete rolled-back handle used to witness C9. -/
def txC9a : Tx :=
  { snapshot := 0, writeSet := [], mvccReadSet := ReadSet.empty,
    mvccReadSetLimit := 3, state := .aborted }

/-- A concrete active handle used to witness C9. -/
def txC9b : Tx :=
  { snapshot := 0, writeSet := [], mvccReadSet := ReadSet.empty,
    mvccReadSetLimit := 3, state := .active }

/-- Witness for C9: the rolled-back handle `txC9a` refuses a point read and a
rollback with `TransactionClosed`, and both rollback and commit of the active
handle `txC9b` leave it non-active. -/
theorem terminal_handle_rejects_ops_witness :
    txC9a.state ≠ .active ∧
    txC9b.state = .active ∧
    (recordGet [] txC9a [120] = .error .TransactionClosed ∧
     rollback txC9a = .error .TransactionClosed ∧
     (txAfterRollback txC9b).state ≠ .active ∧
     (commit [] txC9b).tx.state ≠ .active) :=
  ⟨by decide, rfl,
    (terminal_handle_rejects_ops [] txC9a txC9b [120] [97] [97] [122] none 0 0
      (by decide) rfl).1,
    (terminal_handle_rejects_ops [] txC9a txC9b [120] [97] [97] [122] none 0 0
      (by decide) rfl).2.2.2.2.2.2.2.2.1,
    (terminal_handle_rejects_ops [] txC9a txC9b [120] [97] [97] [122] none 0 0
      (by decide) rfl).2.2.2.2.2.2.2.2.2.1,
    (terminal_handle_rejects_ops [] txC9a txC9b [120] [97] [97] [122] none 0 0
      (by decide) rfl).2.2.2.2.2.2.2.2.2.2⟩

end Mvcc

namespace Server

/-- Embedded from `src/pkg/server/options.go`: `const SystemDBName = "systemdb"`. -/
def SystemDBName : String := "systemdb"

/-- Embedded from `src/pkg/server/options.go`: `const DefaultDBName = "mydatabase"`. -/
def DefaultDBName : String := "mydatabase"

/-- Embedded from the `Options` struct of `src/pkg/server/options.go`,
keeping the fields of plain Go type; fields of external library types
(`*tls.Config`, `net.Listener`, `time.Duration`, `*sessions.Options`,
`*RemoteStorageOptions`, `*ReplicationOptions`) and those whose defaults come
from packages outside this tree (`AdminPassword`, `MaxResultSize`,
`StreamChunkSize`) are omitted; they play no role in the embedded claims. -/
structure Options where
  Dir : String
  Network : String
  Address : String
  Port : Nat
  Config : String
  Pidfile : String
  LogDir : String
  Logfile : String
  LogAccess : Bool
  LogRotationSize : Nat
  AutoCert : Bool
  auth : Bool
  MaxRecvMsgSize : Nat
  NoHistograms : Bool
  Detached : Bool
  MetricsServer : Bool
  MetricsServerPort : Nat
  WebServer : Bool
  WebServerPort : Nat
  DevMode : Bool
  ForceAdminPassword : Bool
  systemAdminDBName : String
  defaultDBName : String
  usingCustomListener : Bool
  maintenance : Bool
  SigningKey : String
  synced : Bool
  TokenExpiryTimeMin : Nat
  PgsqlServer : Bool
  PgsqlServerPort : Nat
  PProf : Bool
  LogFormat : String
  GRPCReflectionServerEnabled : Bool
  SwaggerUIEnabled : Bool
  LogRequestMetadata : Bool
  MaxActiveDatabases : Nat
deriving DecidableEq, Repr

/-- Embedded from `DefaultOptions()` of `src/pkg/server/options.go`; fields
the Go literal leaves unset carry Go's zero values. -/
def DefaultOptions : Options :=
  { Dir := "./data"
    Network := "tcp"
    Address := "0.0.0.0"
    Port := 3322
    Config := "configs/immudb.toml"
    Pidfile := ""
    LogDir := "immulog"
    Logfile := ""
    LogAccess := false
    LogRotationSize := 0
    AutoCert := false
    auth := true
    MaxRecvMsgSize := 1024 * 1024 * 32
    NoHistograms := false
    Detached := false
    MetricsServer := true
    MetricsServerPort := 9497
    WebServer := true
    WebServerPort := 8080
    DevMode := false
    ForceAdminPassword := false
    systemAdminDBName := SystemDBName
    defaultDBName := DefaultDBName
    usingCustomListener := false
    maintenance := false
    SigningKey := ""
    synced := true
    TokenExpiryTimeMin := 1440
    PgsqlServer := false
    PgsqlServerPort := 5432
    PProf := false
    LogFormat := ""
    GRPCReflectionServerEnabled := true
    SwaggerUIEnabled := true
    LogRequestMetadata := false
    MaxActiveDatabases := 100 }

/-- Embedded from `GetDefaultDBName` of `src/pkg/server/options.go`. -/
def Options.GetDefaultDBName (o : Options) : String := o.defaultDBName

/-- Embedded from `GetSystemAdminDBName` of `src/pkg/server/options.go`. -/
def Options.GetSystemAdminDBName (o : Options) : String := o.systemAdminDBName

/-- C10: the server's default database name is `"mydatabase"` — the package
constant `DefaultDBName` equals `"mydatabase"`, `DefaultOptions` wires that
constant into its `defaultDBName` field, and `GetDefaultDBName` on the value
produced by `DefaultOptions` returns `"mydatabase"` (not upstream immudb's
conventional `"defaultdb"`). -/
theorem default_db_name_mydatabase :
    DefaultDBName = "mydatabase" ∧
    DefaultOptions.defaultDBName = DefaultDBName ∧
    DefaultOptions.GetDefaultDBName = "mydatabase" ∧
    DefaultDBName ≠ "defaultdb" :=
  ⟨rfl, rfl, rfl, by decide⟩

end Server
